import Mathlib

/-!
Shallow embedding of the artifact-eviction engine: the pure library
functions (stats, eviction selector, cleanup accountant) and the
orchestrating `performCleanup` pipeline, with the external deletion
primitive modelled as an outcome oracle.  Timestamps are parsed epoch
milliseconds (`Option Int`, with `none` for an absent/null `created_at`);
sizes and limits are integers; byte→GiB conversion is exact rational
division.
-/

namespace ArtifactEviction

/-- Artifact record as read from the repository inventory: identity,
display name, size in bytes, and an optional creation timestamp
(milliseconds since the epoch; `none` models a null `created_at`). -/
structure Artifact where
  id : Nat
  name : String
  size_in_bytes : Nat
  created_at : Option Int
deriving DecidableEq

/-- Effective creation time used for ordering: a missing timestamp is
coalesced to the epoch, mirroring `new Date(a.created_at ?? 0).getTime()`. -/
def createdTime (a : Artifact) : Int := a.created_at.getD 0

/-- Aggregate stats over an artifact set. -/
structure ArtifactStats where
  totalCount : Nat
  totalSizeBytes : Nat
  totalSizeGB : ℚ
deriving DecidableEq

/-- Outcome of one deletion attempt. -/
structure DeletionResult where
  artifact : Artifact
  success : Bool
  error : Option String
deriving DecidableEq

/-- Immutable summary of a cleanup run. -/
structure CleanupSummary where
  initial : ArtifactStats
  deletedCount : Nat
  freedBytes : Nat
  freedGB : ℚ
  finalSizeBytes : Int
  finalSizeGB : ℚ
  failures : List DeletionResult
  retained : List Artifact
deriving DecidableEq

/-- Byte count to GiB, `bytes / 1024 ^ 3`. -/
def bytesToGB (bytes : ℚ) : ℚ := bytes / 1024 ^ 3

/-- Sum of `size_in_bytes` over the list, as a left fold from 0. -/
def calculateTotalSize (artifacts : List Artifact) : Nat :=
  artifacts.foldl (fun sum artifact => sum + artifact.size_in_bytes) 0

/-- Count, total byte size and GiB rendering of an artifact set. -/
def calculateStats (artifacts : List Artifact) : ArtifactStats :=
  let totalSizeBytes := calculateTotalSize artifacts
  { totalCount := artifacts.length
    totalSizeBytes := totalSizeBytes
    totalSizeGB := bytesToGB (totalSizeBytes : ℚ) }

/-- Strict comparison of current size against the limit. -/
def isOverLimit (sizeBytes maxSizeBytes : Int) : Bool :=
  decide (maxSizeBytes < sizeBytes)

/-- Comparator of the sort: nondecreasing effective creation time. -/
def createdLE (a b : Artifact) : Prop := createdTime a ≤ createdTime b

instance : DecidableRel createdLE := fun a b => Int.decLe (createdTime a) (createdTime b)

instance : IsTotal Artifact createdLE := ⟨fun a b => Int.le_total (createdTime a) (createdTime b)⟩

instance : IsTrans Artifact createdLE := ⟨fun _ _ _ h1 h2 => le_trans h1 h2⟩

/-- Stable ascending sort by effective creation time (oldest first). -/
def sortByCreatedDate (artifacts : List Artifact) : List Artifact :=
  artifacts.insertionSort createdLE

/-- Walk of the sorted candidates: while the running size is still over
the limit, take the next artifact and subtract its size. -/
def selectLoop (maxSize : Int) : List Artifact → Int → List Artifact
  | [], _ => []
  | artifact :: rest, remainingSize =>
    if remainingSize ≤ maxSize then []
    else artifact :: selectLoop maxSize rest (remainingSize - (artifact.size_in_bytes : Int))

/-- Eviction selector: empty when already at or under the limit,
otherwise the greedy oldest-first walk over the sorted list. -/
def selectArtifactsToDelete (artifacts : List Artifact) (currentSize maxSize : Int) :
    List Artifact :=
  if currentSize ≤ maxSize then []
  else selectLoop maxSize (sortByCreatedDate artifacts) currentSize

/-- Cleanup accountant: partition outcomes by success, sum freed bytes,
and derive the final totals. -/
def createCleanupSummary (initial : ArtifactStats) (results : List DeletionResult)
    (retained : List Artifact) : CleanupSummary :=
  let successful := results.filter (fun r => r.success)
  let failures := results.filter (fun r => !r.success)
  let freedBytes := successful.foldl (fun sum result => sum + result.artifact.size_in_bytes) 0
  { initial := initial
    deletedCount := successful.length
    freedBytes := freedBytes
    freedGB := bytesToGB (freedBytes : ℚ)
    finalSizeBytes := (initial.totalSizeBytes : Int) - (freedBytes : Int)
    finalSizeGB := bytesToGB (((initial.totalSizeBytes : Int) - (freedBytes : Int) : Int) : ℚ)
    failures := failures
    retained := retained }

/-- One deletion attempt against the external delete oracle `del`: the
outcome always carries the attempted artifact itself. -/
def deleteArtifact (del : Artifact → Bool × Option String) (artifact : Artifact) :
    DeletionResult :=
  { artifact := artifact, success := (del artifact).1, error := (del artifact).2 }

/-- One deletion attempt per artifact, outcomes in selection order. -/
def deleteArtifacts (del : Artifact → Bool × Option String) (artifacts : List Artifact) :
    List DeletionResult :=
  artifacts.map (deleteArtifact del)

/-- Message of the fatal consistency error raised when the selector
comes back empty while usage is still over the limit. -/
def consistencyErrorMessage : String :=
  "No artifacts to delete, but still over limit. This should not happen."

/-- Orchestrated cleanup: compute stats, short-circuit when under the
limit, otherwise select, delete, and fold the outcomes into a summary.
The deletion primitive is the oracle `del`. -/
def performCleanup (del : Artifact → Bool × Option String) (maxSizeBytes : Int)
    (artifacts : List Artifact) : Except String CleanupSummary :=
  let initialStats := calculateStats artifacts
  if !(isOverLimit (initialStats.totalSizeBytes : Int) maxSizeBytes) then
    Except.ok
      { initial := initialStats
        deletedCount := 0
        freedBytes := 0
        freedGB := 0
        finalSizeBytes := (initialStats.totalSizeBytes : Int)
        finalSizeGB := initialStats.totalSizeGB
        failures := []
        retained := artifacts }
  else
    let toDelete :=
      selectArtifactsToDelete artifacts (initialStats.totalSizeBytes : Int) maxSizeBytes
    if toDelete.length = 0 then
      Except.error consistencyErrorMessage
    else
      let results := deleteArtifacts del toDelete
      let toDeleteIds := toDelete.map (fun a => a.id)
      let retained := artifacts.filter (fun a => !(toDeleteIds.contains a.id))
      Except.ok (createCleanupSummary initialStats results retained)

/-- Deletion outcomes of a run, reconstructed from the oracle and the
selection (the `results` value inside `performCleanup`). -/
def runOutcomes (del : Artifact → Bool × Option String) (maxSizeBytes : Int)
    (artifacts : List Artifact) : List DeletionResult :=
  deleteArtifacts del
    (selectArtifactsToDelete artifacts ((calculateTotalSize artifacts : Int)) maxSizeBytes)

/-- Total byte size of a list of artifacts, as an integer. -/
def sumSizes (l : List Artifact) : Int :=
  (l.map (fun a => (a.size_in_bytes : Int))).sum

/-- Display name used by the January test artifact. -/
def nameOld : String := "january"

/-- Display name used by the March test artifact. -/
def nameNew : String := "march"

/-- Display name used by the undated test artifact. -/
def nameNoDate : String := "undated"

/-- Display name used by the tiny test artifact. -/
def nameTiny : String := "tiny"

/-- Error message reported by the always-failing delete oracle. -/
def errBoom : String := "boom"

/-- Concrete artifact: id 1, 100 bytes, created at the epoch. -/
def artifactOld : Artifact :=
  { id := 1, name := nameOld, size_in_bytes := 100, created_at := some 0 }

/-- Concrete artifact: id 2, 100 bytes, created one day after the epoch. -/
def artifactNew : Artifact :=
  { id := 2, name := nameNew, size_in_bytes := 100, created_at := some 86400000 }

/-- Concrete artifact with a missing creation timestamp. -/
def artifactNoDate : Artifact :=
  { id := 3, name := nameNoDate, size_in_bytes := 50, created_at := none }

/-- Concrete artifact: id 9, a single byte, created at the epoch. -/
def artifactTiny : Artifact :=
  { id := 9, name := nameTiny, size_in_bytes := 1, created_at := some 0 }

/-- Delete oracle that fails every request with a fixed message. -/
def delFail : Artifact → Bool × Option String := fun _ => (false, some errBoom)

/-- Delete oracle that accepts every request. -/
def delOk : Artifact → Bool × Option String := fun _ => (true, none)

/-- A failed deletion outcome for the January artifact. -/
def failedOutcome : DeletionResult :=
  { artifact := artifactOld, success := false, error := some errBoom }

/-- Stats of the two-artifact test inventory. -/
def statsTwo : ArtifactStats := calculateStats [artifactOld, artifactNew]

/-- Sorted order of the March artifact and the undated artifact. -/
def witnessSorted : List Artifact := sortByCreatedDate [artifactNew, artifactNoDate]

/-- Folding `+ f a` from `n` is `n` plus the sum of the mapped list. -/
theorem foldl_add_eq_sum {α : Type} (f : α → Nat) (l : List α) (n : Nat) :
    l.foldl (fun s a => s + f a) n = n + (l.map f).sum := by
  induction l generalizing n with
  | nil => simp
  | cons a t ih => simp [ih, Nat.add_assoc]

/-- Counting with a predicate and with its negation covers the list. -/
theorem countP_add_countP_not {α : Type} (p : α → Bool) (l : List α) :
    l.countP p + l.countP (fun a => !p a) = l.length := by
  induction l with
  | nil => simp
  | cons a t ih => by_cases h : p a <;> simp [List.countP_cons, h] <;> omega

/-- C7: `isOverLimit` is strict greater-than: a size equal to the limit is
not over the limit, and one byte more is. -/
theorem isOverLimit_strict (x : Nat) :
    isOverLimit (x : Int) (x : Int) = false ∧ isOverLimit ((x : Int) + 1) (x : Int) = true := by
  simp [isOverLimit]

/-- C3: the summary's `freedBytes` is the total size of the successful
outcomes, `deletedCount` counts the successful outcomes, and
`finalSizeBytes` is the initial total minus `freedBytes`. -/
theorem createCleanupSummary_accounting (initial : ArtifactStats)
    (results : List DeletionResult) (retained : List Artifact) :
    (createCleanupSummary initial results retained).freedBytes
        = ((results.filter (fun r => r.success)).map (fun r => r.artifact.size_in_bytes)).sum
      ∧ (createCleanupSummary initial results retained).deletedCount
          = results.countP (fun r => r.success)
      ∧ (createCleanupSummary initial results retained).finalSizeBytes
          = (initial.totalSizeBytes : Int)
            - ((createCleanupSummary initial results retained).freedBytes : Int) := by
  refine ⟨?_, ?_, rfl⟩
  · show (results.filter (fun r => r.success)).foldl
        (fun sum result => sum + result.artifact.size_in_bytes) 0 = _
    simpa using foldl_add_eq_sum (fun r => r.artifact.size_in_bytes)
      (results.filter (fun r => r.success)) 0
  · show (results.filter (fun r => r.success)).length = _
    exact (List.countP_eq_length_filter _ _).symm

/-- C9: every outcome is accounted exactly once: the number of successes
plus the number of reported failures is the number of outcomes. -/
theorem deletedCount_add_failures_eq_results (initial : ArtifactStats)
    (results : List DeletionResult) (retained : List Artifact) :
    (createCleanupSummary initial results retained).deletedCount
      + (createCleanupSummary initial results retained).failures.length = results.length := by
  show (results.filter (fun r => r.success)).length
      + (results.filter (fun r => !r.success)).length = results.length
  rw [← List.countP_eq_length_filter, ← List.countP_eq_length_filter]
  exact countP_add_countP_not (fun r => r.success) results

/-- C8: the summary's `failures` list is the order-preserving subsequence
of the outcomes with `success = false`, kept verbatim, and every failed
outcome appears in it. -/
theorem failures_stable_partition (initial : ArtifactStats)
    (results : List DeletionResult) (retained : List Artifact) :
    ((createCleanupSummary initial results retained).failures).Sublist results
      ∧ (∀ r, r ∈ (createCleanupSummary initial results retained).failures →
          r.success = false)
      ∧ ∀ r, r ∈ results → r.success = false →
          r ∈ (createCleanupSummary initial results retained).failures := by
  refine ⟨?_, ?_, ?_⟩
  · show (results.filter (fun r => !r.success)).Sublist results
    exact List.filter_sublist results
  · intro r hr
    have h2 : r ∈ results.filter (fun r => !r.success) := hr
    simp only [List.mem_filter, Bool.not_eq_true'] at h2
    exact h2.2
  · intro r hr hfalse
    show r ∈ results.filter (fun r => !r.success)
    simp [List.mem_filter, hr, hfalse]

/-- Witness for C8 at a concrete failed outcome. -/
theorem failures_stable_partition_witness :
    failedOutcome ∈ ([failedOutcome] : List DeletionResult)
      ∧ failedOutcome.success = false
      ∧ failedOutcome ∈ (createCleanupSummary statsTwo [failedOutcome] []).failures :=
  ⟨by simp, by rfl,
    (failures_stable_partition statsTwo [failedOutcome] []).2.2 failedOutcome (by simp) (by rfl)⟩

/-- Output of `sortByCreatedDate` is nondecreasing in effective creation time. -/
theorem sortByCreatedDate_pairwise (l : List Artifact) :
    (sortByCreatedDate l).Pairwise createdLE :=
  List.sorted_insertionSort createdLE l

/-- Greedy walk takes a prefix of its input list. -/
theorem selectLoop_take_front (mx : Int) (l : List Artifact) :
    ∀ r : Int, selectLoop mx l r <+: l := by
  induction l with
  | nil => intro r; simp [selectLoop]
  | cons a rest ih =>
    intro r
    rw [selectLoop]
    split
    · exact List.nil_prefix
    · exact List.cons_prefix_cons.mpr ⟨rfl, ih _⟩

/-- In a list nondecreasing in creation time, an undated entry (time 0)
sits strictly before every entry with positive creation time. -/
theorem pairwise_created_get_lt {l : List Artifact}
    (h : l.Pairwise createdLE)
    (i j : Fin l.length) (hi : (l.get i).created_at = none)
    (hj : 0 < createdTime (l.get j)) : (i : Nat) < (j : Nat) := by
  have h0 : createdTime (l.get i) = 0 := by
    unfold createdTime
    rw [hi]
    rfl
  by_contra hle
  rcases Nat.lt_or_ge (j : Nat) (i : Nat) with hlt | hge
  · have h2 : createdTime (l.get j) ≤ createdTime (l.get i) :=
      List.pairwise_iff_get.mp h j i hlt
    omega
  · have hij : (i : Nat) = (j : Nat) := by omega
    have h4 : l.get i = l.get j := by congr 1; exact Fin.ext hij
    rw [h4] at h0
    omega

/-- C6: `sortByCreatedDate` returns a permutation of its input, is
idempotent, and is stable: a run of equal-timestamp entries keeps its
original relative order (any such subsequence of the input survives as a
subsequence of the output).  The embedding is pure, so the input value
itself is never mutated. -/
theorem sortByCreatedDate_perm_idempotent_stable (l : List Artifact) :
    (sortByCreatedDate l).Perm l
      ∧ sortByCreatedDate (sortByCreatedDate l) = sortByCreatedDate l
      ∧ ∀ ties : List Artifact,
          ties.Pairwise (fun a b => createdTime a = createdTime b) →
          ties.Sublist l → ties.Sublist (sortByCreatedDate l) := by
  refine ⟨List.perm_insertionSort createdLE l, ?_, ?_⟩
  · exact (List.sorted_insertionSort createdLE l).insertionSort_eq
  · intro ties hp hs
    exact List.sublist_insertionSort
      (hp.imp (by intro a b h; unfold createdLE; rw [h])) hs

/-- Witness for C6's stability clause at a concrete tied subsequence. -/
theorem sortByCreatedDate_stable_witness :
    ([artifactOld] : List Artifact).Pairwise (fun a b => createdTime a = createdTime b)
      ∧ ([artifactOld] : List Artifact).Sublist [artifactOld, artifactNew]
      ∧ ([artifactOld] : List Artifact).Sublist (sortByCreatedDate [artifactOld, artifactNew]) :=
  ⟨by simp, by simp,
    (sortByCreatedDate_perm_idempotent_stable [artifactOld, artifactNew]).2.2
      [artifactOld] (by simp) (by simp)⟩

/-- C5: an artifact with an absent creation timestamp is ordered as if
created at the epoch: in the sorted list it appears strictly before every
artifact with a positive timestamp, and the same holds inside the
selector's eviction prefix, so it is selected for eviction first. -/
theorem missing_timestamp_sorts_first (l : List Artifact) (s mx : Int) :
    (∀ i j : Fin (sortByCreatedDate l).length,
        ((sortByCreatedDate l).get i).created_at = none →
        0 < createdTime ((sortByCreatedDate l).get j) → (i : Nat) < (j : Nat))
      ∧ ∀ i j : Fin (selectArtifactsToDelete l s mx).length,
          ((selectArtifactsToDelete l s mx).get i).created_at = none →
          0 < createdTime ((selectArtifactsToDelete l s mx).get j) → (i : Nat) < (j : Nat) := by
  have hsel : (selectArtifactsToDelete l s mx).Pairwise createdLE := by
    unfold selectArtifactsToDelete
    split
    · simp
    · exact List.Pairwise.sublist ((selectLoop_take_front mx (sortByCreatedDate l) s).sublist)
        (sortByCreatedDate_pairwise l)
  constructor
  · intro i j hi hj
    exact pairwise_created_get_lt (sortByCreatedDate_pairwise l) i j hi hj
  · intro i j hi hj
    exact pairwise_created_get_lt hsel i j hi hj

/-- Witness for C5 on the two-element inventory with one undated artifact. -/
theorem missing_timestamp_sorts_first_witness :
    (witnessSorted.get ⟨0, by decide⟩).created_at = none
      ∧ 0 < createdTime (witnessSorted.get ⟨1, by decide⟩)
      ∧ (0 : Nat) < 1 :=
  ⟨by decide, by decide,
    (missing_timestamp_sorts_first [artifactNew, artifactNoDate] 0 0).1
      ⟨0, by decide⟩ ⟨1, by decide⟩ (by decide) (by decide)⟩

/-- The byte total of an empty selection is zero. -/
theorem sumSizes_nil : sumSizes [] = 0 := rfl

/-- The byte total of a selection decomposes over its head. -/
theorem sumSizes_cons (a : Artifact) (l : List Artifact) :
    sumSizes (a :: l) = (a.size_in_bytes : Int) + sumSizes l := by
  simp [sumSizes]

/-- Either the greedy walk consumes the whole candidate list, or the
running size after the walk is at or below the limit. -/
theorem selectLoop_sufficient (mx : Int) (l : List Artifact) :
    ∀ r : Int, selectLoop mx l r = l ∨ r - sumSizes (selectLoop mx l r) ≤ mx := by
  induction l with
  | nil => intro r; left; simp [selectLoop]
  | cons a rest ih =>
    intro r
    rw [selectLoop]
    by_cases h : r ≤ mx
    · right
      rw [if_pos h, sumSizes_nil]
      omega
    · rw [if_neg h]
      rcases ih (r - (a.size_in_bytes : Int)) with h1 | h1
      · left
        rw [h1]
      · right
        rw [sumSizes_cons]
        omega

/-- No prefix strictly shorter than the greedy walk's output brings the
running size at or below the limit. -/
theorem selectLoop_minimal (mx : Int) (l : List Artifact) :
    ∀ (r : Int) (P : List Artifact), P <+: l →
      P.length < (selectLoop mx l r).length → mx < r - sumSizes P := by
  induction l with
  | nil =>
    intro r P hP hlen
    simp [selectLoop] at hlen
  | cons a rest ih =>
    intro r P hP hlen
    rw [selectLoop] at hlen
    by_cases h : r ≤ mx
    · rw [if_pos h] at hlen
      simp at hlen
    · rw [if_neg h] at hlen
      cases P with
      | nil =>
        rw [sumSizes_nil]
        omega
      | cons b P2 =>
        rcases List.cons_prefix_cons.mp hP with ⟨rfl, hP2⟩
        have hlen2 : P2.length < (selectLoop mx rest (r - (b.size_in_bytes : Int))).length := by
          simpa using hlen
        have hrec := ih (r - (b.size_in_bytes : Int)) P2 hP2 hlen2
        rw [sumSizes_cons]
        omega

/-- C2 (amended): the selector returns the empty sequence when the
current size is at or below the limit; otherwise it returns a prefix of
the oldest-first sort that either brings usage at or below the limit or
exhausts the whole list, and no strictly shorter prefix of the sorted
list suffices.  (When no prefix suffices, the whole sorted list is
returned even though removing it does not reach the limit.) -/
theorem select_greedy_shortest_sufficient (A : List Artifact) (s L : Int) :
    (s ≤ L → selectArtifactsToDelete A s L = [])
      ∧ (L < s →
          selectArtifactsToDelete A s L <+: sortByCreatedDate A
            ∧ (s - sumSizes (selectArtifactsToDelete A s L) ≤ L
                ∨ selectArtifactsToDelete A s L = sortByCreatedDate A)
            ∧ ∀ P, P <+: sortByCreatedDate A →
                P.length < (selectArtifactsToDelete A s L).length → L < s - sumSizes P) := by
  constructor
  · intro h
    simp [selectArtifactsToDelete, h]
  · intro h
    have hnot : ¬ s ≤ L := not_le.mpr h
    refine ⟨?_, ?_, ?_⟩
    · rw [selectArtifactsToDelete, if_neg hnot]
      exact selectLoop_take_front L (sortByCreatedDate A) s
    · rw [selectArtifactsToDelete, if_neg hnot]
      exact (selectLoop_sufficient L (sortByCreatedDate A) s).elim Or.inr Or.inl
    · intro P hP hlen
      rw [selectArtifactsToDelete, if_neg hnot] at hlen
      exact selectLoop_minimal L (sortByCreatedDate A) s P hP hlen

/-- Witness for C2's amended statement on a concrete over-limit run. -/
theorem select_greedy_shortest_sufficient_witness :
    (150 : Int) < 300
      ∧ ([artifactOld] : List Artifact) <+: sortByCreatedDate [artifactOld, artifactNew]
      ∧ ([artifactOld] : List Artifact).length
          < (selectArtifactsToDelete [artifactOld, artifactNew] 300 150).length
      ∧ (150 : Int) < 300 - sumSizes [artifactOld] :=
  ⟨by decide, by decide, by decide,
    ((select_greedy_shortest_sufficient [artifactOld, artifactNew] 300 150).2
      (by decide)).2.2 [artifactOld] (by decide) (by decide)⟩

/-- Counterexample to C2 as stated: with one single-byte artifact,
current size 10 and limit 0, the run is over the limit, the selector
returns the whole (one-element) list, and removing that returned prefix
still leaves usage strictly over the limit, so no returned "sufficient
prefix" exists. -/
theorem select_insufficient_counterexample :
    (0 : Int) < 10
      ∧ selectArtifactsToDelete [artifactTiny] 10 0 = [artifactTiny]
      ∧ (0 : Int) < 10 - sumSizes (selectArtifactsToDelete [artifactTiny] 10 0) := by
  refine ⟨by decide, by decide, by decide⟩

/-- C4: when the selector comes back empty while the initial size is
still strictly over the limit, `performCleanup` fails with the dedicated
internal-error result rather than proceeding to a summary; this error is
a failure of the whole run, unlike per-artifact failures, which are
recorded inside a successful summary. -/
theorem performCleanup_empty_selection_error (del : Artifact → Bool × Option String)
    (maxSizeBytes : Int) (artifacts : List Artifact)
    (hover : isOverLimit ((calculateStats artifacts).totalSizeBytes : Int) maxSizeBytes = true)
    (hempty : selectArtifactsToDelete artifacts
        ((calculateStats artifacts).totalSizeBytes : Int) maxSizeBytes = []) :
    performCleanup del maxSizeBytes artifacts = Except.error consistencyErrorMessage := by
  rw [performCleanup]
  simp only [hover, hempty]
  rfl

/-- Witness for C4: an empty inventory with a negative byte limit is over
the limit yet yields an empty selection, and the run fails. -/
theorem performCleanup_empty_selection_error_witness :
    performCleanup delFail (-1) [] = Except.error consistencyErrorMessage :=
  performCleanup_empty_selection_error delFail (-1) [] (by decide) (by decide)

/-- C10: when the initial total size is at or below the limit, the run
succeeds with zero deletions, zero freed bytes, the initial size as the
final size, no failures, and the whole input retained unchanged — for
every deletion oracle, so no deletion is ever attempted. -/
theorem performCleanup_under_limit (del : Artifact → Bool × Option String)
    (maxSizeBytes : Int) (artifacts : List Artifact)
    (h : ((calculateStats artifacts).totalSizeBytes : Int) ≤ maxSizeBytes) :
    performCleanup del maxSizeBytes artifacts = Except.ok
      { initial := calculateStats artifacts
        deletedCount := 0
        freedBytes := 0
        freedGB := 0
        finalSizeBytes := ((calculateStats artifacts).totalSizeBytes : Int)
        finalSizeGB := (calculateStats artifacts).totalSizeGB
        failures := []
        retained := artifacts } := by
  have hover : isOverLimit ((calculateStats artifacts).totalSizeBytes : Int) maxSizeBytes
      = false := by
    rw [isOverLimit]
    simpa using not_lt.mpr h
  rw [performCleanup]
  simp only [hover]
  rfl

/-- Witness for C10 on a one-artifact inventory under the limit. -/
theorem performCleanup_under_limit_witness :
    performCleanup delFail 200 [artifactNew] = Except.ok
      { initial := calculateStats [artifactNew]
        deletedCount := 0
        freedBytes := 0
        freedGB := 0
        finalSizeBytes := ((calculateStats [artifactNew]).totalSizeBytes : Int)
        finalSizeGB := (calculateStats [artifactNew]).totalSizeGB
        failures := []
        retained := [artifactNew] } :=
  performCleanup_under_limit delFail 200 [artifactNew] (by decide)

/-- Ids of outcomes surviving a filter are ids of selected artifacts
whose outcome satisfies the filter. -/
theorem mem_filtered_outcome_ids {del : Artifact → Bool × Option String}
    {T : List Artifact} {p : DeletionResult → Bool} {n : Nat} :
    n ∈ ((deleteArtifacts del T).filter p).map (fun r => r.artifact.id)
      ↔ ∃ a, a ∈ T ∧ p (deleteArtifact del a) = true ∧ a.id = n := by
  constructor
  · intro h
    obtain ⟨r, hrf, hid⟩ := List.mem_map.mp h
    obtain ⟨hr, hp⟩ := List.mem_filter.mp hrf
    obtain ⟨a, haT, rfl⟩ := List.mem_map.mp hr
    exact ⟨a, haT, hp, hid⟩
  · rintro ⟨a, haT, hp, rfl⟩
    exact List.mem_map.mpr ⟨deleteArtifact del a,
      List.mem_filter.mpr ⟨List.mem_map.mpr ⟨a, haT, rfl⟩, hp⟩, rfl⟩

/-- Every artifact selected for deletion comes from the inventory. -/
theorem select_subset {A : List Artifact} {s mx : Int} :
    ∀ a ∈ selectArtifactsToDelete A s mx, a ∈ A := by
  intro a ha
  rw [selectArtifactsToDelete] at ha
  split at ha
  · simp at ha
  · have h2 := (selectLoop_take_front mx (sortByCreatedDate A) s).sublist.subset ha
    simpa [sortByCreatedDate] using h2

/-- For a selection drawn from the inventory, the ids of the artifacts
kept by the id-filter, together with the ids of all outcomes, are the
inventory's ids, and the kept ids meet no successful outcome id. -/
theorem union_disjoint_general (del : Artifact → Bool × Option String)
    (T A : List Artifact) (hTA : ∀ a ∈ T, a ∈ A) :
    (∀ n : Nat, n ∈ A.map (fun a => a.id) ↔
        (n ∈ ((A.filter (fun a => !((T.map (fun x => x.id)).contains a.id))).map
              (fun a => a.id))
          ∨ n ∈ ((deleteArtifacts del T).filter (fun r => r.success)).map
              (fun r => r.artifact.id)
          ∨ n ∈ ((deleteArtifacts del T).filter (fun r => !r.success)).map
              (fun r => r.artifact.id)))
      ∧ ∀ n : Nat,
          n ∈ ((A.filter (fun a => !((T.map (fun x => x.id)).contains a.id))).map
              (fun a => a.id)) →
          n ∉ ((deleteArtifacts del T).filter (fun r => r.success)).map
              (fun r => r.artifact.id) := by
  constructor
  · intro n
    constructor
    · intro hn
      obtain ⟨a, haA, rfl⟩ := List.mem_map.mp hn
      by_cases hmem : a.id ∈ T.map (fun x => x.id)
      · obtain ⟨b, hbT, hbid⟩ := List.mem_map.mp hmem
        by_cases hdb : (deleteArtifact del b).success = true
        · exact Or.inr (Or.inl (mem_filtered_outcome_ids.mpr ⟨b, hbT, hdb, hbid⟩))
        · refine Or.inr (Or.inr (mem_filtered_outcome_ids.mpr ⟨b, hbT, ?_, hbid⟩))
          have hdb2 : (deleteArtifact del b).success = false := Bool.eq_false_iff.mpr hdb
          rw [hdb2]
          rfl
      · left
        refine List.mem_map.mpr ⟨a, List.mem_filter.mpr ⟨haA, ?_⟩, rfl⟩
        have hcf : (T.map (fun x => x.id)).contains a.id = false := by
          cases hc : (T.map (fun x => x.id)).contains a.id with
          | false => rfl
          | true => exact absurd (List.elem_iff.mp hc) hmem
        show (!((T.map (fun x => x.id)).contains a.id)) = true
        rw [hcf]
        rfl
    · rintro (h | h | h)
      · obtain ⟨a, haf, rfl⟩ := List.mem_map.mp h
        exact List.mem_map.mpr ⟨a, (List.mem_filter.mp haf).1, rfl⟩
      · obtain ⟨b, hbT, _, rfl⟩ := mem_filtered_outcome_ids.mp h
        exact List.mem_map.mpr ⟨b, hTA b hbT, rfl⟩
      · obtain ⟨b, hbT, _, rfl⟩ := mem_filtered_outcome_ids.mp h
        exact List.mem_map.mpr ⟨b, hTA b hbT, rfl⟩
  · intro n hnret hnsucc
    obtain ⟨a, haf, rfl⟩ := List.mem_map.mp hnret
    have hnotin : (!((T.map (fun x => x.id)).contains a.id)) = true :=
      (List.mem_filter.mp haf).2
    obtain ⟨b, hbT, _, hbid⟩ := mem_filtered_outcome_ids.mp hnsucc
    have hin : a.id ∈ T.map (fun x => x.id) := List.mem_map.mpr ⟨b, hbT, hbid⟩
    have hc : (T.map (fun x => x.id)).contains a.id = true := List.elem_iff.mpr hin
    rw [hc] at hnotin
    simp at hnotin

/-- C1 (amended): for every successful run, the retained ids together
with the ids of all deletion outcomes — successful and failed — are
exactly the ids of the fetched inventory, and no retained id is the id of
a successfully deleted artifact.  (The original union with only the
successful outcomes omits artifacts whose deletion failed: they are
neither retained nor successfully deleted.) -/
theorem retained_union_outcomes_eq_original (del : Artifact → Bool × Option String)
    (mx : Int) (A : List Artifact) (summary : CleanupSummary)
    (hOk : performCleanup del mx A = Except.ok summary) :
    (∀ n : Nat, n ∈ A.map (fun a => a.id) ↔
        (n ∈ summary.retained.map (fun a => a.id)
          ∨ n ∈ ((runOutcomes del mx A).filter (fun r => r.success)).map
              (fun r => r.artifact.id)
          ∨ n ∈ ((runOutcomes del mx A).filter (fun r => !r.success)).map
              (fun r => r.artifact.id)))
      ∧ ∀ n : Nat, n ∈ summary.retained.map (fun a => a.id) →
          n ∉ ((runOutcomes del mx A).filter (fun r => r.success)).map
              (fun r => r.artifact.id) := by
  have hret : summary.retained
      = A.filter (fun a =>
          !(((selectArtifactsToDelete A ((calculateTotalSize A : Int)) mx).map
              (fun x => x.id)).contains a.id)) := by
    rw [performCleanup] at hOk
    by_cases hover : isOverLimit ((calculateStats A).totalSizeBytes : Int) mx = true
    · simp only [hover, Bool.not_true, Bool.false_eq_true, if_false] at hOk
      by_cases hlen :
          (selectArtifactsToDelete A ((calculateStats A).totalSizeBytes : Int) mx).length = 0
      · rw [if_pos hlen] at hOk
        exact absurd hOk (by simp)
      · rw [if_neg hlen] at hOk
        have hsum := Except.ok.inj hOk
        rw [← hsum]
        rfl
    · have hov2 : isOverLimit ((calculateStats A).totalSizeBytes : Int) mx = false :=
        Bool.eq_false_iff.mpr hover
      simp only [hov2, Bool.not_false] at hOk
      rw [if_pos trivial] at hOk
      have hsum := Except.ok.inj hOk
      rw [← hsum]
      have hnl : ¬ (mx < ((calculateTotalSize A : Int))) := of_decide_eq_false hov2
      have hsel0 : selectArtifactsToDelete A ((calculateTotalSize A : Int)) mx = [] := by
        rw [selectArtifactsToDelete, if_pos (not_lt.mp hnl)]
      show A = _
      rw [hsel0]
      simp
  rw [hret]
  exact union_disjoint_general del
    (selectArtifactsToDelete A ((calculateTotalSize A : Int)) mx) A
    (fun a ha => select_subset a ha)

/-- Counterexample to C1 as stated: with two artifacts of 100 bytes, a
150-byte limit and a delete oracle that fails every request, the run
succeeds but the oldest artifact (id 1) is neither in the summary's
retained list nor among the successful outcomes, so the claimed union
misses it. -/
theorem retained_union_successful_counterexample :
    (performCleanup delFail 150 [artifactOld, artifactNew]).toOption.map
        (fun s => s.retained.map (fun a => a.id)) = some [2]
      ∧ ((runOutcomes delFail 150 [artifactOld, artifactNew]).filter
          (fun r => r.success)).map (fun r => r.artifact.id) = []
      ∧ [artifactOld, artifactNew].map (fun a => a.id) = [1, 2]
      ∧ (1 : Nat) ∉ ([2] : List Nat) :=
  ⟨by decide, by decide, by decide, by decide⟩

/-- Witness for C1's amended statement on an under-limit run. -/
theorem retained_union_outcomes_witness :
    (2 : Nat) ∈ ([artifactNew] : List Artifact).map (fun a => a.id) :=
  ((retained_union_outcomes_eq_original delFail 200 [artifactNew]
      { initial := calculateStats [artifactNew]
        deletedCount := 0
        freedBytes := 0
        freedGB := 0
        finalSizeBytes := ((calculateStats [artifactNew]).totalSizeBytes : Int)
        finalSizeGB := (calculateStats [artifactNew]).totalSizeGB
        failures := []
        retained := [artifactNew] } (by rfl)).1 2).mpr (Or.inl (by decide))

end ArtifactEviction
